import Mathlib

/-!
Verification of the Anandak Assessment application core: the scoring and
feedback engine, the multi-step wizard state machine, the results/submission
step, the certificate renderer and the two serverless API routes. Each
definition is a shallow embedding of the corresponding TypeScript source
(component files under `src/components`, route handlers under `src/app/api`);
definitions whose source file (`lib/assessment-data.ts`,
`lib/indian-states-districts.ts`) is absent from the repository snapshot are
modelled from the design spec and marked as such in their doc comments.
-/

namespace Anandak

/-- The two UI languages of the application (`type Language = 'en' | 'hi'` in
`aptitude-insight-app.tsx`). -/
inductive Language where
  | en
  | hi
deriving DecidableEq, Repr

/-- The closed set of personality traits scored by the assessment, as
enumerated by the per-trait columns of `saveAssessmentToSupabase` in
`src/app/api/log/route.ts`. -/
inductive Trait where
  | gratitude
  | resilience
  | empathy
  | sociability
  | socialCognition
  | courage
deriving DecidableEq, Repr

/-- A bilingual text pair, as used for question texts and option texts. -/
structure Bilingual where
  en : String
  hi : String
deriving DecidableEq, Repr

/-- Resolve a bilingual pair at a language (the `text[lang]` access pattern of
the source components). -/
def Bilingual.get (b : Bilingual) : Language → String
  | Language.en => b.en
  | Language.hi => b.hi

/-- One answer option of a question: a bilingual text and an integer score
(the `option.text` / `option.score` fields used by `assessment-step.tsx`). -/
structure AnswerOption where
  text : Bilingual
  score : Nat
deriving DecidableEq, Repr

/-- A question of the static catalog: id, trait, bilingual prompt and options
(the `Question` shape consumed by `assessment-step.tsx`). -/
structure Question where
  id : Nat
  trait : Trait
  questionText : Bilingual
  options : List AnswerOption
deriving DecidableEq, Repr

/-- Modelled from the spec: the options of each catalog question.
`lib/assessment-data.ts` is not part of the repository snapshot; per the spec
each question offers exactly one option per score value 1, 2, 3 (option texts
are unknown and represented by placeholder strings). -/
def stdOptions : List AnswerOption :=
  [ { text := { en := "Option A", hi := "Option A (hi)" }, score := 3 }
  , { text := { en := "Option B", hi := "Option B (hi)" }, score := 2 }
  , { text := { en := "Option C", hi := "Option C (hi)" }, score := 1 } ]

/-- Modelled from the spec: the static question catalog of
`lib/assessment-data.ts`, which is not part of the repository snapshot. Per
the spec there are N = 6 questions with ids 1..6, one per trait (the trait
order follows the per-trait columns of `src/app/api/log/route.ts`); prompt
texts are unknown and represented by placeholder strings. -/
def questions : List Question :=
  [ { id := 1, trait := Trait.gratitude, questionText := { en := "Q1", hi := "Q1 (hi)" }, options := stdOptions }
  , { id := 2, trait := Trait.resilience, questionText := { en := "Q2", hi := "Q2 (hi)" }, options := stdOptions }
  , { id := 3, trait := Trait.empathy, questionText := { en := "Q3", hi := "Q3 (hi)" }, options := stdOptions }
  , { id := 4, trait := Trait.sociability, questionText := { en := "Q4", hi := "Q4 (hi)" }, options := stdOptions }
  , { id := 5, trait := Trait.socialCognition, questionText := { en := "Q5", hi := "Q5 (hi)" }, options := stdOptions }
  , { id := 6, trait := Trait.courage, questionText := { en := "Q6", hi := "Q6 (hi)" }, options := stdOptions } ]

/-- Placeholder question used to totalise out-of-range catalog indexing (the
TypeScript `questions[currentQuestionIndex]` is only ever evaluated at
in-range indices). -/
def defaultQuestion : Question :=
  { id := 0, trait := Trait.gratitude, questionText := { en := "", hi := "" }, options := [] }

/-- One score-range bucket of the final-feedback table: a contiguous integer
range of totalScore mapped to one bilingual feedback text. -/
structure ScoreBucket where
  lo : Nat
  hi : Nat
  text : Bilingual
deriving DecidableEq, Repr

/-- Modelled from the spec: the final-feedback bucket table of
`lib/assessment-data.ts`, which is not part of the repository snapshot. Per
the spec the buckets are ordered, non-overlapping low/medium/high ranges
covering every integer from N = 6 to 3N = 18 inclusive; the boundary values
and texts are unknown, so a concrete partition of [6, 18] with placeholder
texts is used. -/
def finalFeedbackBuckets : List ScoreBucket :=
  [ { lo := 6, hi := 10, text := { en := "Low-range overall feedback", hi := "Low-range overall feedback (hi)" } }
  , { lo := 11, hi := 14, text := { en := "Mid-range overall feedback", hi := "Mid-range overall feedback (hi)" } }
  , { lo := 15, hi := 18, text := { en := "High-range overall feedback", hi := "High-range overall feedback (hi)" } } ]

/-- Placeholder bucket used only to totalise head/last access on the bucket
list in theorem statements. -/
def defaultBucket : ScoreBucket :=
  { lo := 0, hi := 0, text := { en := "", hi := "" } }

/-- Modelled from the spec: `getFinalFeedback(score, lang)` of
`lib/assessment-data.ts` (not in the repository snapshot), which selects the
score-range bucket containing `score` and returns its text in the requested
language; out-of-range scores have no bucket (the spec's InvalidInput case),
modelled as `none`. -/
def getFinalFeedback (score : Nat) (lang : Language) : Option String :=
  (finalFeedbackBuckets.find? (fun b => b.lo ≤ score && score ≤ b.hi)).map
    (fun b => b.text.get lang)

/-- An answer record created when the user selects an option and advances
(the `AnswerDetail` interface of `assessment-step.tsx`). -/
structure AnswerDetail where
  id : Nat
  trait : Trait
  score : Nat
  feedback : String
deriving DecidableEq, Repr

/-- Variant of a toast notice (`variant: "destructive"` in the source calls). -/
inductive ToastVariant where
  | destructive
  | standard
deriving DecidableEq, Repr

/-- A toast notice as raised through `useToast` by the components. -/
structure Toast where
  title : String
  description : String
  variant : ToastVariant
deriving DecidableEq, Repr

/-- Title and description of the selection-required toast. -/
structure ToastText where
  title : String
  description : String
deriving DecidableEq, Repr

/-- Modelled from the spec: the `translations[lang].assessment.toast` entry of
`lib/assessment-data.ts` (not in the repository snapshot) — the bilingual
"selection required" notice text shown by `handleNext`; the exact strings are
unknown and represented by placeholders. -/
def assessmentToastText : Language → ToastText
  | Language.en => { title := "Selection Required", description := "Please select an option before proceeding." }
  | Language.hi => { title := "Selection Required (hi)", description := "Please select an option before proceeding. (hi)" }

/-- The recoverable "selection required" notice raised by `handleNext` in
`assessment-step.tsx` (lines 73-80): a destructive-variant toast built from
the active language's translation table. -/
def selectionRequiredToast (lang : Language) : Toast :=
  { title := (assessmentToastText lang).title
  , description := (assessmentToastText lang).description
  , variant := ToastVariant.destructive }

/-- The local state of `AssessmentStep` (`assessment-step.tsx`):
`showInstructions`, `currentQuestionIndex`, `answers`, `selectedOption` and
`currentFeedback`. The radio values of the source are `String(option.score)`
and are read back with `parseInt`, so the selected option is modelled
directly as the selected score. -/
structure AssessmentState where
  showInstructions : Bool
  currentQuestionIndex : Nat
  answers : List AnswerDetail
  selectedOption : Option Nat
  currentFeedback : Option String
deriving DecidableEq, Repr

/-- The initial `AssessmentStep` state right after the instructions screen is
acknowledged (`setShowInstructions(false)`). -/
def initialAssessmentState : AssessmentState :=
  { showInstructions := false
  , currentQuestionIndex := 0
  , answers := []
  , selectedOption := none
  , currentFeedback := none }

/-- The `handleOptionChange` handler of `assessment-step.tsx` (lines 64-70):
records the selection and resolves transient feedback for the current
question's trait in the active language. `gIF` stands for the
`getIndividualFeedback` function of the absent `lib/assessment-data.ts` and
is passed as a parameter. -/
def handleOptionChange (lang : Language) (gIF : Trait → Nat → Language → String)
    (s : AssessmentState) (value : Nat) : AssessmentState :=
  let currentQuestion := questions.getD s.currentQuestionIndex defaultQuestion
  { s with
    selectedOption := some value
    currentFeedback := some (gIF currentQuestion.trait value lang) }

/-- The `handleNext` handler of `assessment-step.tsx` (lines 72-99). Returns
the next state, the toasts raised, and the `onComplete` payload when the last
question was just answered. With no selection it raises the
selection-required toast and changes nothing; otherwise it appends an
`AnswerDetail` whose feedback is resolved in English (`'en'` hardcoded at
line 87) and either advances to the next question or completes. -/
def handleNext (lang : Language) (gIF : Trait → Nat → Language → String)
    (s : AssessmentState) : AssessmentState × List Toast × Option (List AnswerDetail) :=
  match s.selectedOption with
  | none => (s, [selectionRequiredToast lang], none)
  | some score =>
    let currentQuestion := questions.getD s.currentQuestionIndex defaultQuestion
    let newAnswer : AnswerDetail :=
      { id := currentQuestion.id
      , trait := currentQuestion.trait
      , score := score
      , feedback := gIF currentQuestion.trait score Language.en }
    let newAnswers := s.answers ++ [newAnswer]
    if s.currentQuestionIndex < questions.length - 1 then
      ({ s with
          currentQuestionIndex := s.currentQuestionIndex + 1
          answers := newAnswers
          selectedOption := none
          currentFeedback := none }, [], none)
    else
      ({ s with answers := newAnswers }, [], some newAnswers)

/-- The totalScore computation of `aptitude-insight-app.tsx` (line 87):
`assessmentData.reduce((acc, val) => acc + val.score, 0)`. -/
def totalScore (answers : List AnswerDetail) : Nat :=
  answers.foldl (fun acc val => acc + val.score) 0

/-- Folding score addition from any accumulator yields the accumulator plus
the sum of the scores. -/
lemma foldl_add_score (l : List AnswerDetail) (n : Nat) :
    l.foldl (fun acc val => acc + val.score) n = n + (l.map (fun a => a.score)).sum := by
  induction l generalizing n with
  | nil => simp
  | cons a t ih => simp [List.foldl_cons, ih]; omega

/-- The reduce-based totalScore equals the arithmetic sum of the scores. -/
lemma totalScore_eq_sum (l : List AnswerDetail) :
    totalScore l = (l.map (fun a => a.score)).sum := by
  simpa [totalScore] using foldl_add_score l 0

/-- A list of answers whose scores all lie in {1, 2, 3} has score sum between
its length and three times its length. -/
lemma sum_score_bounds (l : List AnswerDetail)
    (h : ∀ a ∈ l, a.score = 1 ∨ a.score = 2 ∨ a.score = 3) :
    l.length ≤ (l.map (fun a => a.score)).sum ∧
    (l.map (fun a => a.score)).sum ≤ 3 * l.length := by
  induction l with
  | nil => simp
  | cons a t ih =>
    have ha := h a (by simp)
    have ht := ih (fun b hb => h b (by simp [hb]))
    simp only [List.map_cons, List.sum_cons, List.length_cons]
    rcases ha with h1 | h1 | h1 <;> rw [h1] <;> constructor <;> omega

/-- Sample full answer set: one answer per catalog question, each scoring 3
(the spec's maximum-score scenario). -/
def sampleAnswers : List AnswerDetail :=
  [ { id := 1, trait := Trait.gratitude, score := 3, feedback := "fb1" }
  , { id := 2, trait := Trait.resilience, score := 3, feedback := "fb2" }
  , { id := 3, trait := Trait.empathy, score := 3, feedback := "fb3" }
  , { id := 4, trait := Trait.sociability, score := 3, feedback := "fb4" }
  , { id := 5, trait := Trait.socialCognition, score := 3, feedback := "fb5" }
  , { id := 6, trait := Trait.courage, score := 3, feedback := "fb6" } ]

end Anandak

namespace Anandak

/-- C2: for a completed session of one answer per catalog question, each with
score in {1, 2, 3}, the totalScore the wizard passes to the Results step
(the `reduce` in `aptitude-insight-app.tsx`) equals the arithmetic sum of the
per-question scores, and 6 ≤ totalScore ≤ 18. -/
theorem wizard_totalScore_sum (answers : List AnswerDetail)
    (hlen : answers.length = questions.length)
    (hsc : ∀ a ∈ answers, a.score = 1 ∨ a.score = 2 ∨ a.score = 3) :
    totalScore answers = (answers.map (fun a => a.score)).sum ∧
    6 ≤ totalScore answers ∧ totalScore answers ≤ 18 := by
  have hq : questions.length = 6 := by decide
  rw [hq] at hlen
  have hb := sum_score_bounds answers hsc
  refine ⟨totalScore_eq_sum answers, ?_, ?_⟩ <;> rw [totalScore_eq_sum] <;> omega

/-- Witness for C2 on the six maximum-score answers. -/
theorem wizard_totalScore_sum_witness :
    totalScore sampleAnswers = (sampleAnswers.map (fun a => a.score)).sum ∧
    6 ≤ totalScore sampleAnswers ∧ totalScore sampleAnswers ≤ 18 :=
  wizard_totalScore_sum sampleAnswers (by decide) (by decide)

/-- C3: invoking the advance action with no option selected leaves the
assessment state unchanged (same question index, zero new answer records),
completes nothing, and raises the recoverable destructive-variant
"selection required" toast. -/
theorem handleNext_noSelection (lang : Language) (gIF : Trait → Nat → Language → String)
    (s : AssessmentState) (h : s.selectedOption = none) :
    handleNext lang gIF s = (s, [selectionRequiredToast lang], none) ∧
    (selectionRequiredToast lang).variant = ToastVariant.destructive := by
  refine ⟨?_, rfl⟩
  unfold handleNext
  rw [h]

/-- Witness for C3 at the initial assessment state. -/
theorem handleNext_noSelection_witness :
    handleNext Language.en (fun _ _ _ => "") initialAssessmentState =
      (initialAssessmentState, [selectionRequiredToast Language.en], none) ∧
    (selectionRequiredToast Language.en).variant = ToastVariant.destructive :=
  handleNext_noSelection Language.en (fun _ _ _ => "") initialAssessmentState rfl

end Anandak

namespace Anandak

/-- Outcome of the `fetch('/api/log', ...)` submission call made by
`logSubmission` in `results-step.tsx`: success, a non-OK HTTP response whose
derived error message is thrown (line 81), or a network/parse error thrown by
`fetch`/`json` themselves. -/
inductive FetchOutcome where
  | ok
  | httpError (msg : String)
  | networkError (msg : String)
deriving DecidableEq, Repr

/-- The toast raised when saving certificate data to localStorage fails
(`results-step.tsx` lines 43-50). -/
def couldNotSaveToast : Toast :=
  { title := "Could not save certificate"
  , description := "There was an issue preparing your certificate data."
  , variant := ToastVariant.destructive }

/-- The non-blocking notice raised when the submission-sink call fails
(`results-step.tsx` lines 86-93). -/
def submissionFailedToast (msg : String) : Toast :=
  { title := "Data Submission Failed"
  , description := "Your assessment results could not be saved. Reason: " ++ msg
  , variant := ToastVariant.destructive }

/-- Observable state of one `ResultsStep` session instance: the one-shot
`hasLoggedRef` flag, the number of certificate-data localStorage handoffs,
the number of `/api/log` submission calls performed, and the toasts raised. -/
structure ResultsSession where
  hasLogged : Bool
  certSaves : Nat
  logAttempts : Nat
  toasts : List Toast
deriving DecidableEq, Repr

/-- A freshly mounted `ResultsStep` session instance
(`useRef(false)`, nothing saved, nothing logged). -/
def freshResultsSession : ResultsSession :=
  { hasLogged := false, certSaves := 0, logAttempts := 0, toasts := [] }

/-- One run of the `useEffect` body of `results-step.tsx` (lines 28-98) on a
session instance: return immediately if `hasLoggedRef` is set, otherwise set
it, hand the certificate data to localStorage (toasting on storage failure),
then perform the `/api/log` call exactly once, toasting a non-blocking
failure notice when it fails. `storageOk` models whether the
`localStorage.setItem` call succeeds. -/
def runResultsEffect (storageOk : Bool) (outcome : FetchOutcome)
    (s : ResultsSession) : ResultsSession :=
  if s.hasLogged then s
  else
    let s1 := { s with hasLogged := true }
    let s2 :=
      if storageOk then { s1 with certSaves := s1.certSaves + 1 }
      else { s1 with toasts := s1.toasts ++ [couldNotSaveToast] }
    let s3 := { s2 with logAttempts := s2.logAttempts + 1 }
    match outcome with
    | FetchOutcome.ok => s3
    | FetchOutcome.httpError msg => { s3 with toasts := s3.toasts ++ [submissionFailedToast msg] }
    | FetchOutcome.networkError msg => { s3 with toasts := s3.toasts ++ [submissionFailedToast msg] }

/-- A sequence of effect runs (re-renders / re-entries into the Results view
of the same session instance), starting from a fresh session. -/
def runEffects (storageOk : Bool) (outcomes : List FetchOutcome) : ResultsSession :=
  outcomes.foldl (fun s o => runResultsEffect storageOk o s) freshResultsSession

/-- One effect run starting from a fresh session with localStorage working. -/
def runOnce (o : FetchOutcome) : ResultsSession :=
  runResultsEffect true o freshResultsSession

/-- After any effect run the one-shot flag is set. -/
lemma runResultsEffect_hasLogged (storageOk : Bool) (o : FetchOutcome) (s : ResultsSession) :
    (runResultsEffect storageOk o s).hasLogged = true := by
  unfold runResultsEffect
  by_cases h : s.hasLogged = true
  · simp [h]
  · simp only [Bool.not_eq_true] at h
    cases o <;> cases storageOk <;> simp [h]

/-- An effect run on an already-logged session changes nothing. -/
lemma runResultsEffect_noop (storageOk : Bool) (o : FetchOutcome) (s : ResultsSession)
    (h : s.hasLogged = true) : runResultsEffect storageOk o s = s := by
  unfold runResultsEffect
  simp [h]

/-- Title and button text of the Results view
(the `translations[lang].results` entry). -/
structure ResultsText where
  title : String
  certificateButton : String
deriving DecidableEq, Repr

/-- Modelled from the spec: the `translations[lang].results` entry of
`lib/assessment-data.ts` (not in the repository snapshot); the strings are
unknown and represented by placeholders. -/
def resultsText : Language → ResultsText
  | Language.en => { title := "Assessment Complete", certificateButton := "View Certificate" }
  | Language.hi => { title := "Assessment Complete (hi)", certificateButton := "View Certificate (hi)" }

/-- What the Results view displays: heading, the user addressed, the final
feedback insight, and the certificate navigation button. -/
structure ResultsView where
  title : String
  userName : String
  insight : String
  certificateButton : String
deriving DecidableEq, Repr

/-- The render output of `ResultsStep` (`results-step.tsx` lines 104-127):
built from the props (`score`, `userData`, `lang`) and `getFinalFeedback`
(`gFF`); it reads nothing from the submission session state, which is
therefore an ignored parameter. -/
def resultsStepRender (score : Nat) (userName : String) (lang : Language)
    (gFF : Nat → Language → String) (_session : ResultsSession) : ResultsView :=
  { title := (resultsText lang).title
  , userName := userName
  , insight := gFF score lang
  , certificateButton := (resultsText lang).certificateButton }

end Anandak

namespace Anandak

/-- C4: the submission-sink call and the certificate-data handoff happen at
most once per session instance — an effect run on an already-logged session
is a no-op, a second run right after any run changes nothing, and any
sequence of re-renders/re-entries performs at most one submission call and
at most one certificate handoff. -/
theorem results_effect_idempotent :
    (∀ (storageOk : Bool) (o : FetchOutcome) (s : ResultsSession),
        s.hasLogged = true → runResultsEffect storageOk o s = s) ∧
    (∀ (storageOk : Bool) (o1 o2 : FetchOutcome) (s : ResultsSession),
        runResultsEffect storageOk o2 (runResultsEffect storageOk o1 s) =
          runResultsEffect storageOk o1 s) ∧
    (∀ (storageOk : Bool) (outcomes : List FetchOutcome),
        (runEffects storageOk outcomes).logAttempts ≤ 1 ∧
        (runEffects storageOk outcomes).certSaves ≤ 1) := by
  refine ⟨runResultsEffect_noop, ?_, ?_⟩
  · intro storageOk o1 o2 s
    exact runResultsEffect_noop storageOk o2 _ (runResultsEffect_hasLogged storageOk o1 s)
  · intro storageOk outcomes
    have hrest : ∀ (os : List FetchOutcome) (s : ResultsSession), s.hasLogged = true →
        os.foldl (fun s o => runResultsEffect storageOk o s) s = s := by
      intro os
      induction os with
      | nil => intro s _; rfl
      | cons o rest ih =>
        intro s hs
        simp only [List.foldl_cons, runResultsEffect_noop storageOk o s hs]
        exact ih s hs
    cases outcomes with
    | nil => simp [runEffects, freshResultsSession]
    | cons o rest =>
      have h1 : (runResultsEffect storageOk o freshResultsSession).logAttempts = 1 ∧
          (runResultsEffect storageOk o freshResultsSession).certSaves ≤ 1 := by
        cases o <;> cases storageOk <;> simp [runResultsEffect, freshResultsSession]
      simp only [runEffects, List.foldl_cons]
      rw [hrest rest _ (runResultsEffect_hasLogged storageOk o freshResultsSession)]
      exact ⟨le_of_eq h1.1, h1.2⟩

/-- Witness for C4: a no-op re-run on a concrete logged session and the
at-most-once bound on a concrete double re-entry. -/
theorem results_effect_idempotent_witness :
    runResultsEffect true FetchOutcome.ok
        { hasLogged := true, certSaves := 1, logAttempts := 1, toasts := [] } =
      { hasLogged := true, certSaves := 1, logAttempts := 1, toasts := [] } ∧
    (runEffects true [FetchOutcome.ok, FetchOutcome.ok]).logAttempts ≤ 1 :=
  ⟨results_effect_idempotent.1 true FetchOutcome.ok _ rfl,
   (results_effect_idempotent.2.2 true [FetchOutcome.ok, FetchOutcome.ok]).1⟩

/-- C8: when the submission call fails (non-OK response or thrown error), the
certificate data was still handed off locally, the failure surfaces as a
single destructive toast, exactly one submission attempt was made and it is
not retried, and the rendered Results view is identical to the success case
(the failure neither blocks, crashes nor resets the session). -/
theorem submission_failure_nonblocking (msg : String) (o : FetchOutcome)
    (hfail : o = FetchOutcome.httpError msg ∨ o = FetchOutcome.networkError msg) :
    (runOnce o).certSaves = 1 ∧
    (runOnce o).toasts = [submissionFailedToast msg] ∧
    (submissionFailedToast msg).variant = ToastVariant.destructive ∧
    (runOnce o).logAttempts = 1 ∧
    (∀ o2 storageOk, runResultsEffect storageOk o2 (runOnce o) = runOnce o) ∧
    (∀ score userName lang gFF,
        resultsStepRender score userName lang gFF (runOnce o) =
          resultsStepRender score userName lang gFF (runOnce FetchOutcome.ok)) := by
  have hretry : ∀ o2 storageOk, runResultsEffect storageOk o2 (runOnce o) = runOnce o :=
    fun o2 storageOk =>
      runResultsEffect_noop storageOk o2 _ (runResultsEffect_hasLogged true o freshResultsSession)
  rcases hfail with h | h <;> subst h <;>
    exact ⟨by simp [runOnce, runResultsEffect, freshResultsSession],
           by simp [runOnce, runResultsEffect, freshResultsSession],
           rfl,
           by simp [runOnce, runResultsEffect, freshResultsSession],
           hretry,
           fun _ _ _ _ => rfl⟩

/-- Witness for C8 at a concrete failing submission. -/
theorem submission_failure_nonblocking_witness :
    (runOnce (FetchOutcome.httpError "Failed to log submission")).certSaves = 1 ∧
    (runOnce (FetchOutcome.httpError "Failed to log submission")).toasts =
      [submissionFailedToast "Failed to log submission"] ∧
    (submissionFailedToast "Failed to log submission").variant = ToastVariant.destructive ∧
    (runOnce (FetchOutcome.httpError "Failed to log submission")).logAttempts = 1 ∧
    (∀ o2 storageOk, runResultsEffect storageOk o2
        (runOnce (FetchOutcome.httpError "Failed to log submission")) =
      runOnce (FetchOutcome.httpError "Failed to log submission")) ∧
    (∀ score userName lang gFF,
        resultsStepRender score userName lang gFF
            (runOnce (FetchOutcome.httpError "Failed to log submission")) =
          resultsStepRender score userName lang gFF (runOnce FetchOutcome.ok)) :=
  submission_failure_nonblocking "Failed to log submission"
    (FetchOutcome.httpError "Failed to log submission") (Or.inl rfl)

end Anandak

namespace Anandak

/-- The closed gender enumeration of the form schema
(`z.enum(["Male", "Female", "Other", "Prefer not to say"])` in
`user-info-step.tsx`). -/
inductive Gender where
  | male
  | female
  | other
  | preferNotToSay
deriving DecidableEq, Repr

/-- The raw values held by the PersonalInfo form before validation
(`defaultValues` of `useForm` in `user-info-step.tsx`): unselected
dropdowns and the untouched age field are `undefined`, modelled as `none`. -/
structure FormValues where
  name : String
  name_hi : String
  age : Option Nat
  gender : Option Gender
  countryCode : String
  mobile : String
  email : String
  state : String
  district : Option String
deriving DecidableEq, Repr

/-- The validated `UserInfo` payload (`z.infer<typeof formSchema>`). -/
structure UserInfo where
  name : String
  name_hi : String
  age : Nat
  gender : Gender
  countryCode : String
  mobile : String
  email : String
  state : String
  district : String
deriving DecidableEq, Repr

/-- The `formSchema` of `user-info-step.tsx` (lines 28-38): name at least 2
characters, non-empty Hindi name, age 1..120, gender from the closed
enumeration, non-empty country code and mobile, email either empty or valid
(the email regex of `z.string().email()` is abstracted as the `emailValid`
parameter), and state and district each a non-empty string. Note that no rule
relates `district` to `state`. -/
def formSchemaValidate (emailValid : String → Bool) (v : FormValues) : Bool :=
  decide (2 ≤ v.name.length) &&
  decide (1 ≤ v.name_hi.length) &&
  (match v.age with
   | some a => decide (1 ≤ a) && decide (a ≤ 120)
   | none => false) &&
  v.gender.isSome &&
  decide (1 ≤ v.countryCode.length) &&
  decide (1 ≤ v.mobile.length) &&
  ((v.email == "") || emailValid v.email) &&
  decide (1 ≤ v.state.length) &&
  (match v.district with
   | some d => decide (1 ≤ d.length)
   | none => false)

/-- Extraction of the validated payload from the raw form values; only
applied after `formSchemaValidate` succeeds, so the defaults are never
observable. -/
def toUserInfo (v : FormValues) : UserInfo :=
  { name := v.name
  , name_hi := v.name_hi
  , age := v.age.getD 0
  , gender := v.gender.getD Gender.preferNotToSay
  , countryCode := v.countryCode
  , mobile := v.mobile
  , email := v.email
  , state := v.state
  , district := v.district.getD "" }

/-- The wizard steps of `aptitude-insight-app.tsx`
(`type Step = 'language' | 'info' | 'assessment' | 'results'`). -/
inductive Step where
  | language
  | info
  | assessment
  | results
deriving DecidableEq, Repr

/-- The wizard state of `AptitudeInsightApp`: current step, selected
language, submitted user data and the completed answer sequence. -/
structure AppState where
  step : Step
  lang : Language
  userData : Option UserInfo
  assessmentData : List AnswerDetail
deriving DecidableEq, Repr

/-- `handleLanguageSelect` of `aptitude-insight-app.tsx` (lines 41-44). -/
def handleLanguageSelect (s : AppState) (selectedLang : Language) : AppState :=
  { s with lang := selectedLang, step := Step.info }

/-- `handleInfoSubmit` of `aptitude-insight-app.tsx` (lines 46-49). -/
def handleInfoSubmit (s : AppState) (data : UserInfo) : AppState :=
  { s with userData := some data, step := Step.assessment }

/-- `handleAssessmentComplete` of `aptitude-insight-app.tsx` (lines 51-54). -/
def handleAssessmentComplete (s : AppState) (data : List AnswerDetail) : AppState :=
  { s with assessmentData := data, step := Step.results }

/-- Submitting the PersonalInfo form: `form.handleSubmit(handleFormSubmit)`
invokes `onSubmit` only when the resolver accepts the values; on a validation
failure the wizard stays on PersonalInfo. -/
def submitUserInfo (emailValid : String → Bool) (s : AppState) (v : FormValues) : AppState :=
  if formSchemaValidate emailValid v then handleInfoSubmit s (toUserInfo v) else s

/-- One entry of the state/district lookup table. -/
structure StateDistricts where
  state : String
  districts : List String
deriving DecidableEq, Repr

/-- Modelled from the spec: the `statesWithDistricts` lookup table of
`lib/indian-states-districts.ts`, which is not in the repository snapshot;
only the entries the spec names are included (Bhopal is a Madhya Pradesh
district, Mumbai is not — it belongs to Maharashtra). -/
def statesWithDistricts : List StateDistricts :=
  [ { state := "Madhya Pradesh", districts := ["Bhopal", "Indore", "Gwalior", "Jabalpur"] }
  , { state := "Maharashtra", districts := ["Mumbai", "Pune", "Nagpur"] } ]

/-- The district choices the UI offers for a selected state
(`statesWithDistricts.find(s => s.state === selectedState)` in
`user-info-step.tsx` lines 116-124); an unknown state offers none. -/
def districtsFor (st : String) : List String :=
  ((statesWithDistricts.find? (fun s => s.state == st)).map (fun s => s.districts)).getD []

/-- The effect of selecting a new state in the form: the district field is
reset (`form.resetField("district")`, `user-info-step.tsx` line 120). -/
def onStateChange (v : FormValues) (newState : String) : FormValues :=
  { v with state := newState, district := none }

/-- The spec's state/district-mismatch scenario values: the §8 reference user
with district "Mumbai" selected against state "Madhya Pradesh". -/
def mumbaiValues : FormValues :=
  { name := "Test User"
  , name_hi := "Test User hi"
  , age := some 30
  , gender := some Gender.male
  , countryCode := "+91"
  , mobile := "9999999999"
  , email := ""
  , state := "Madhya Pradesh"
  , district := some "Mumbai" }

/-- A wizard state sitting on the PersonalInfo step. -/
def infoStateEn : AppState :=
  { step := Step.info, lang := Language.en, userData := none, assessmentData := [] }

end Anandak

namespace Anandak

/-- Counterexample to C5: the UserInfo with district "Mumbai" and state
"Madhya Pradesh" passes `formSchema` validation even though Mumbai is not in
Madhya Pradesh's district list, and the wizard advances past PersonalInfo to
the assessment step instead of rejecting with a field-level error. -/
theorem district_mismatch_accepted :
    formSchemaValidate (fun _ => false) mumbaiValues = true ∧
    (submitUserInfo (fun _ => false) infoStateEn mumbaiValues).step = Step.assessment ∧
    "Mumbai" ∉ districtsFor "Madhya Pradesh" := by
  refine ⟨rfl, rfl, by decide⟩

/-- C5 (amended): the schema validation of PersonalInfo checks only that the
district is a non-empty string and never relates it to the selected state —
swapping one non-empty district for another never changes the validation
result, and the Mumbai/Madhya-Pradesh values validate and advance the wizard
for every email validator. The state/district referential invariant is
instead maintained by the UI lookup table: the district choices offered for
Madhya Pradesh include Bhopal but not Mumbai (which is offered for
Maharashtra), and selecting a new state resets the district field. -/
theorem district_validation_ignores_state (emailValid : String → Bool) (v : FormValues)
    (d1 d2 : String) (h1 : 1 ≤ d1.length) (h2 : 1 ≤ d2.length) :
    formSchemaValidate emailValid { v with district := some d1 } =
      formSchemaValidate emailValid { v with district := some d2 } ∧
    formSchemaValidate emailValid mumbaiValues = true ∧
    (submitUserInfo emailValid infoStateEn mumbaiValues).step = Step.assessment ∧
    "Bhopal" ∈ districtsFor "Madhya Pradesh" ∧
    "Mumbai" ∉ districtsFor "Madhya Pradesh" ∧
    "Mumbai" ∈ districtsFor "Maharashtra" ∧
    (∀ w : FormValues, ∀ st : String, (onStateChange w st).district = none) := by
  have e1 : decide (1 ≤ d1.length) = true := decide_eq_true h1
  have e2 : decide (1 ≤ d2.length) = true := decide_eq_true h2
  refine ⟨?_, rfl, rfl, by decide, by decide, by decide, fun w st => rfl⟩
  simp [formSchemaValidate, e1, e2]

/-- Witness for C5's amended theorem at the concrete districts Bhopal and
Mumbai. -/
theorem district_validation_ignores_state_witness :
    formSchemaValidate (fun _ => false) { mumbaiValues with district := some "Bhopal" } =
      formSchemaValidate (fun _ => false) { mumbaiValues with district := some "Mumbai" } ∧
    formSchemaValidate (fun _ => false) mumbaiValues = true ∧
    (submitUserInfo (fun _ => false) infoStateEn mumbaiValues).step = Step.assessment ∧
    "Bhopal" ∈ districtsFor "Madhya Pradesh" ∧
    "Mumbai" ∉ districtsFor "Madhya Pradesh" ∧
    "Mumbai" ∈ districtsFor "Maharashtra" ∧
    (∀ w : FormValues, ∀ st : String, (onStateChange w st).district = none) :=
  district_validation_ignores_state (fun _ => false) mumbaiValues "Bhopal" "Mumbai"
    (by decide) (by decide)

end Anandak

namespace Anandak

/-- Answering one question: the user selects an option
(`handleOptionChange`) and advances (`handleNext`); yields the next state
and the completion payload if the last question was just answered. -/
def stepQuestion (lang : Language) (gIF : Trait → Nat → Language → String)
    (s : AssessmentState) (choice : Nat) : AssessmentState × Option (List AnswerDetail) :=
  let s1 := handleOptionChange lang gIF s choice
  let r := handleNext lang gIF s1
  (r.1, r.2.2)

/-- Running the assessment machine over a list of option choices, stopping
when `onComplete` fires (the wizard then leaves the assessment step). -/
def runFrom (lang : Language) (gIF : Trait → Nat → Language → String) :
    AssessmentState → List Nat → AssessmentState × Option (List AnswerDetail)
  | s, [] => (s, none)
  | s, c :: cs =>
    match stepQuestion lang gIF s c with
    | (s', some ans) => (s', some ans)
    | (s', none) => runFrom lang gIF s' cs

/-- The `submissionData` object POSTed to `/api/log` by `logSubmission`
(`results-step.tsx` lines 56-70). -/
structure SubmissionData where
  name : String
  name_hi : String
  age : Nat
  gender : Gender
  mobile : String
  email : String
  countryCode : String
  state : String
  district : String
  assessmentData : List AnswerDetail
  totalScore : Nat
  finalAssessmentText : String
  date : String
deriving DecidableEq, Repr

/-- Assembly of the persisted submission record (`results-step.tsx` lines
56-70): user fields, the answer sequence, the total score, and the final
assessment text resolved with the English locale on both calls
(`getFinalAssessment(getFinalFeedback(score, 'en'), 'en')`, line 68). `gFF`
and `gFA` stand for `getFinalFeedback` and `getFinalAssessment` of the
absent `lib/assessment-data.ts` and are passed as parameters. -/
def buildSubmissionData (gFF : Nat → Language → String) (gFA : String → Language → String)
    (userData : UserInfo) (assessmentData : List AnswerDetail) (score : Nat)
    (date : String) : SubmissionData :=
  { name := userData.name
  , name_hi := userData.name_hi
  , age := userData.age
  , gender := userData.gender
  , mobile := userData.mobile
  , email := userData.email
  , countryCode := userData.countryCode
  , state := userData.state
  , district := userData.district
  , assessmentData := assessmentData
  , totalScore := score
  , finalAssessmentText := gFA (gFF score Language.en) Language.en
  , date := date }

/-- The record a complete session persists: run the assessment machine on the
user's choices in the selected UI language; on completion the wizard computes
the total score and the Results step assembles the submission record. -/
def sessionRecord (lang : Language) (gIF : Trait → Nat → Language → String)
    (gFF : Nat → Language → String) (gFA : String → Language → String)
    (user : UserInfo) (choices : List Nat) (date : String) : Option SubmissionData :=
  match (runFrom lang gIF initialAssessmentState choices).2 with
  | some answers => some (buildSubmissionData gFF gFA user answers (totalScore answers) date)
  | none => none

/-- Forgetting the transient on-screen feedback of an assessment state (the
only language-dependent component of the machine state). -/
def eraseFeedback (s : AssessmentState) : AssessmentState :=
  { s with currentFeedback := none }

/-- Answering a question in two sessions that agree up to transient feedback
keeps them agreeing up to transient feedback and produces the same
completion payload, whatever the two display languages are: the stored
feedback is always resolved in English. -/
lemma stepQuestion_lang_agnostic (lang1 lang2 : Language)
    (gIF : Trait → Nat → Language → String) (s1 s2 : AssessmentState) (c : Nat)
    (h : eraseFeedback s1 = eraseFeedback s2) :
    eraseFeedback (stepQuestion lang1 gIF s1 c).1 =
      eraseFeedback (stepQuestion lang2 gIF s2 c).1 ∧
    (stepQuestion lang1 gIF s1 c).2 = (stepQuestion lang2 gIF s2 c).2 := by
  cases s1 with
  | mk sh1 idx1 ans1 sel1 fb1 =>
    cases s2 with
    | mk sh2 idx2 ans2 sel2 fb2 =>
      simp only [eraseFeedback, AssessmentState.mk.injEq] at h
      obtain ⟨hsh, hidx, hans, hsel, -⟩ := h
      subst hsh; subst hidx; subst hans; subst hsel
      by_cases hlt : idx1 < questions.length - 1 <;>
        simp [stepQuestion, handleOptionChange, handleNext, eraseFeedback, hlt]

/-- Running the machine over the same choices in two display languages yields
the same completion payload. -/
lemma runFrom_lang_agnostic (gIF : Trait → Nat → Language → String)
    (choices : List Nat) :
    ∀ (lang1 lang2 : Language) (s1 s2 : AssessmentState),
      eraseFeedback s1 = eraseFeedback s2 →
      (runFrom lang1 gIF s1 choices).2 = (runFrom lang2 gIF s2 choices).2 := by
  induction choices with
  | nil => intro lang1 lang2 s1 s2 _; rfl
  | cons c cs ih =>
    intro lang1 lang2 s1 s2 h
    have hs := stepQuestion_lang_agnostic lang1 lang2 gIF s1 s2 c h
    rcases e1 : stepQuestion lang1 gIF s1 c with ⟨s1', r1⟩
    rcases e2 : stepQuestion lang2 gIF s2 c with ⟨s2', r2⟩
    rw [e1, e2] at hs
    obtain ⟨hstate, hr⟩ := hs
    simp only at hr
    subst hr
    simp only [runFrom, e1, e2]
    cases r1 with
    | none => exact ih lang1 lang2 s1' s2' hstate
    | some ans => rfl

end Anandak

namespace Anandak

/-- C6: the persisted submission record is independent of the selected UI
language — for any two sessions identical except for the language (en vs
hi), the stored record (including every stored AnswerRecord feedback and the
stored finalAssessmentText, which the code always resolves with the English
locale) is identical. -/
theorem persisted_record_locale_noninterference
    (gIF : Trait → Nat → Language → String) (gFF : Nat → Language → String)
    (gFA : String → Language → String) (user : UserInfo) (choices : List Nat)
    (date : String) :
    sessionRecord Language.en gIF gFF gFA user choices date =
      sessionRecord Language.hi gIF gFF gFA user choices date := by
  unfold sessionRecord
  rw [runFrom_lang_agnostic gIF choices Language.en Language.hi
    initialAssessmentState initialAssessmentState rfl]

end Anandak

namespace Anandak

/-- Modelled from the spec: the `translations.hi.cert.finalAssessment` text
wrapper of `lib/assessment-data.ts` (not in the repository snapshot), applied
by the certificate to the stored English final-assessment text on the Hindi
variant; the exact wording is unknown and represented by a placeholder. -/
def hindiFinalAssessmentWrapper (s : String) : String :=
  "Final assessment (hi): " ++ s

/-- The data read back for the certificate
(`CertificateData` in `certificate.tsx`): the user fields plus date, the
answer sequence and the stored final-assessment text. -/
structure CertificateData where
  name : String
  name_hi : String
  age : Nat
  gender : Gender
  countryCode : String
  mobile : String
  email : String
  state : String
  district : String
  date : String
  assessmentData : List AnswerDetail
  finalAssessmentText : String
deriving DecidableEq, Repr

/-- One entry of the certificate's detailed-results section: the trait, the
score shown as n/3, and the feedback string displayed for it. -/
structure RenderedResult where
  trait : Trait
  score : Nat
  feedbackShown : String
deriving DecidableEq, Repr

/-- The content of one certificate variant: its language, its
detailed-results entries and its assessment-summary line. -/
structure RenderedCertificate where
  lang : Language
  results : List RenderedResult
  summary : String
deriving DecidableEq, Repr

/-- The `CertificateContent` renderer of `certificate.tsx`: the detailed
results are the answers whose trait is not Courage (line 64), each displayed
with a feedback string freshly resolved by `getIndividualFeedback(item.trait,
item.score, lang)` (line 159, `gIF` parameter), and the summary shows the
stored `finalAssessmentText` directly on the English variant and through the
Hindi wrapper on the Hindi variant (line 167). -/
def certificateContent (gIF : Trait → Nat → Language → String)
    (data : CertificateData) (lang : Language) : RenderedCertificate :=
  let detailedResults := data.assessmentData.filter (fun item => item.trait != Trait.courage)
  { lang := lang
  , results := detailedResults.map (fun item =>
      { trait := item.trait
      , score := item.score
      , feedbackShown := gIF item.trait item.score lang })
  , summary :=
      match lang with
      | Language.en => data.finalAssessmentText
      | Language.hi => hindiFinalAssessmentWrapper data.finalAssessmentText }

/-- The `Certificate` component (`certificate.tsx` lines 381-382): renders
the English and the Hindi variant from the same data. -/
def certificate (gIF : Trait → Nat → Language → String)
    (data : CertificateData) : RenderedCertificate × RenderedCertificate :=
  (certificateContent gIF data Language.en, certificateContent gIF data Language.hi)

/-- A trait-score feedback pair of the `feedback_comments` column. -/
structure FeedbackComment where
  trait : Trait
  feedback : String
deriving DecidableEq, Repr

/-- Extraction of one trait's score from the answer list
(`data.assessmentData?.find((a) => a.trait === ...)?.score ?? 0` in
`src/app/api/log/route.ts`). -/
def traitScore (answers : List AnswerDetail) (t : Trait) : Nat :=
  ((answers.find? (fun a => a.trait == t)).map (fun a => a.score)).getD 0

/-- The relational row inserted by `saveAssessmentToSupabase`
(`src/app/api/log/route.ts` lines 55-79). -/
structure SupabaseRow where
  name : String
  name_hi : String
  age : Nat
  gender : Gender
  country_code : String
  mobile : String
  email : String
  state : String
  district : String
  total_score : Nat
  final_assessment : String
  gratitude_score : Nat
  resilience_score : Nat
  empathy_score : Nat
  sociability_score : Nat
  social_cognition_score : Nat
  courage_score : Nat
  assessment_data : List AnswerDetail
  feedback_comments : List FeedbackComment
deriving DecidableEq, Repr

/-- `saveAssessmentToSupabase` of `src/app/api/log/route.ts` (lines 38-93):
extracts the six per-trait scores, collects the feedback comments, and
inserts the flattened record including the full answer list. -/
def saveAssessmentToSupabase (d : SubmissionData) : SupabaseRow :=
  { name := d.name
  , name_hi := d.name_hi
  , age := d.age
  , gender := d.gender
  , country_code := if d.countryCode == "" then "+91" else d.countryCode
  , mobile := d.mobile
  , email := d.email
  , state := d.state
  , district := d.district
  , total_score := d.totalScore
  , final_assessment := d.finalAssessmentText
  , gratitude_score := traitScore d.assessmentData Trait.gratitude
  , resilience_score := traitScore d.assessmentData Trait.resilience
  , empathy_score := traitScore d.assessmentData Trait.empathy
  , sociability_score := traitScore d.assessmentData Trait.sociability
  , social_cognition_score := traitScore d.assessmentData Trait.socialCognition
  , courage_score := traitScore d.assessmentData Trait.courage
  , assessment_data := d.assessmentData
  , feedback_comments := d.assessmentData.map (fun a => { trait := a.trait, feedback := a.feedback }) }

/-- A concrete certificate payload: the §8 reference user with the six
maximum-score answers. -/
def sampleCertData : CertificateData :=
  { name := "Test User"
  , name_hi := "Test User hi"
  , age := 30
  , gender := Gender.male
  , countryCode := "+91"
  , mobile := "9999999999"
  , email := ""
  , state := "Madhya Pradesh"
  , district := "Bhopal"
  , date := "October 12, 2026"
  , assessmentData := sampleAnswers
  , finalAssessmentText := "High-range overall feedback" }

/-- A concrete full submission record for the same session. -/
def sampleSubmission : SubmissionData :=
  { name := "Test User"
  , name_hi := "Test User hi"
  , age := 30
  , gender := Gender.male
  , mobile := "9999999999"
  , email := ""
  , countryCode := "+91"
  , state := "Madhya Pradesh"
  , district := "Bhopal"
  , assessmentData := sampleAnswers
  , totalScore := 18
  , finalAssessmentText := "High-range overall feedback"
  , date := "October 12, 2026" }

/-- Rewriting the stored feedback strings of the answers does not change the
rendered detailed results, because the renderer re-resolves feedback from
the trait and score. -/
lemma render_ignores_stored_feedback (f : AnswerDetail → String)
    (gIF : Trait → Nat → Language → String) (lang : Language)
    (l : List AnswerDetail) :
    ((l.map (fun a => { a with feedback := f a })).filter
        (fun item => item.trait != Trait.courage)).map
      (fun item => ({ trait := item.trait, score := item.score
                    , feedbackShown := gIF item.trait item.score lang } : RenderedResult)) =
    (l.filter (fun item => item.trait != Trait.courage)).map
      (fun item => { trait := item.trait, score := item.score
                   , feedbackShown := gIF item.trait item.score lang }) := by
  induction l with
  | nil => rfl
  | cons a t ih =>
    simp only [List.map_cons, List.filter_cons]
    cases hb : a.trait != Trait.courage <;> simp [hb, ih]

end Anandak

namespace Anandak

/-- Counterexample to C7: certificate rendering is not a function of the
SubmissionRecord alone — it calls `getIndividualFeedback` afresh, so two
engines that differ on some (trait, score, language) render different
certificates from the identical record. -/
theorem certificate_depends_on_engine :
    certificateContent (fun _ _ _ => "A") sampleCertData Language.en ≠
      certificateContent (fun _ _ _ => "B") sampleCertData Language.en := by
  decide

/-- C7 (amended): both certificate variants are rendered from the finalized
record plus fresh calls into the engine's `getIndividualFeedback` — the
detailed results re-resolve each displayed feedback from (trait, score,
language) and ignore the stored feedback strings entirely, while the
assessment summary is taken from the record's `finalAssessmentText` without
re-invoking the final-assessment selection; the English and Hindi variants
come from the same data. -/
theorem certificate_render_spec (gIF : Trait → Nat → Language → String)
    (data : CertificateData) (lang : Language) :
    (certificateContent gIF data lang).results =
      (data.assessmentData.filter (fun item => item.trait != Trait.courage)).map
        (fun item => { trait := item.trait, score := item.score
                     , feedbackShown := gIF item.trait item.score lang }) ∧
    (∀ f : AnswerDetail → String,
        certificateContent gIF
            { data with assessmentData :=
                data.assessmentData.map (fun a => { a with feedback := f a }) } lang =
          certificateContent gIF data lang) ∧
    (certificateContent gIF data Language.en).summary = data.finalAssessmentText ∧
    (certificateContent gIF data Language.hi).summary =
      hindiFinalAssessmentWrapper data.finalAssessmentText ∧
    certificate gIF data =
      (certificateContent gIF data Language.en, certificateContent gIF data Language.hi) := by
  refine ⟨rfl, ?_, rfl, rfl, rfl⟩
  intro f
  simp only [certificateContent, RenderedCertificate.mk.injEq, true_and, and_true]
  exact render_ignores_stored_feedback f gIF lang data.assessmentData

/-- C10: the certificate's detailed-results section lists exactly the
answers whose trait is not Courage — no rendered entry has trait Courage and
every non-Courage answer is rendered — while the Courage score still flows
into the persisted record (which keeps the full answer list and a dedicated
courage_score column) and into the totalScore, which sums all answers. -/
theorem certificate_courage_excluded_but_scored
    (gIF : Trait → Nat → Language → String) (data : CertificateData) (lang : Language) :
    (∀ r ∈ (certificateContent gIF data lang).results, r.trait ≠ Trait.courage) ∧
    (∀ item ∈ data.assessmentData, item.trait ≠ Trait.courage →
        ({ trait := item.trait, score := item.score
         , feedbackShown := gIF item.trait item.score lang } : RenderedResult) ∈
          (certificateContent gIF data lang).results) ∧
    (∀ d : SubmissionData,
        (saveAssessmentToSupabase d).assessment_data = d.assessmentData ∧
        (saveAssessmentToSupabase d).courage_score = traitScore d.assessmentData Trait.courage ∧
        (saveAssessmentToSupabase d).total_score = d.totalScore) ∧
    (∀ answers : List AnswerDetail,
        totalScore answers = (answers.map (fun a => a.score)).sum) := by
  refine ⟨?_, ?_, fun d => ⟨rfl, rfl, rfl⟩, totalScore_eq_sum⟩
  · intro r hr
    simp only [certificateContent, List.mem_map, List.mem_filter, bne_iff_ne] at hr
    obtain ⟨item, ⟨-, hc⟩, hr⟩ := hr
    subst hr
    exact hc
  · intro item him hne
    simp only [certificateContent, List.mem_map, List.mem_filter, bne_iff_ne]
    exact ⟨item, ⟨him, hne⟩, rfl⟩

/-- Witness for C10 on the concrete sample data: the rendered Gratitude
entry is not Courage-tagged and is indeed rendered, while the persisted row
keeps the full answer list and the totalScore sums all six answers. -/
theorem certificate_courage_excluded_but_scored_witness :
    ({ trait := Trait.gratitude, score := 3, feedbackShown := "fb" } : RenderedResult).trait ≠
      Trait.courage ∧
    ({ trait := Trait.gratitude, score := 3, feedbackShown := "fb" } : RenderedResult) ∈
      (certificateContent (fun _ _ _ => "fb") sampleCertData Language.en).results ∧
    (saveAssessmentToSupabase sampleSubmission).assessment_data =
      sampleSubmission.assessmentData ∧
    totalScore sampleAnswers = (sampleAnswers.map (fun a => a.score)).sum :=
  ⟨(certificate_courage_excluded_but_scored (fun _ _ _ => "fb") sampleCertData Language.en).1
      { trait := Trait.gratitude, score := 3, feedbackShown := "fb" } (by decide),
   (certificate_courage_excluded_but_scored (fun _ _ _ => "fb") sampleCertData Language.en).2.1
      { id := 1, trait := Trait.gratitude, score := 3, feedback := "fb1" } (by decide) (by decide),
   ((certificate_courage_excluded_but_scored (fun _ _ _ => "fb") sampleCertData Language.en).2.2.1
      sampleSubmission).1,
   (certificate_courage_excluded_but_scored (fun _ _ _ => "fb") sampleCertData Language.en).2.2.2
      sampleAnswers⟩

end Anandak

namespace Anandak

/-- The request body of a POST to `/api/transliterate` as seen through
`req.json()`: a body that fails to parse as JSON, a JSON body with no (or a
falsy) `text` field, or a body carrying a text string. -/
inductive ReqBody where
  | malformed
  | noText
  | withText (t : String)
deriving DecidableEq, Repr

/-- Outcome of the upstream Google Input Tools call made by the route:
`fetch`/`response.json()` throws, the response is non-OK (which the route
turns into a thrown error, line 132), or a parsed payload whose shape may or
may not match `data[0] === 'SUCCESS'` with a candidate at
`data[1][0][1][0]`. -/
inductive UpstreamOutcome where
  | throwErr
  | notOk (status : Nat)
  | okParsed (success : Bool) (candidate : Option String)
deriving DecidableEq, Repr

/-- The JSON responses of the transliterate route: a 200 with a
`transliteration` field or a 400 with an `error` field. -/
inductive ApiResp where
  | ok (transliteration : String)
  | badRequest (error : String)
deriving DecidableEq, Repr

/-- The POST handler of the transliterate route (the route file's lines
120-151). An unparseable body throws inside `try`, and a missing or empty
`text` returns the 400 error. On an upstream throw or non-OK status the
catch block re-reads `req.json()`; the body stream was already consumed by
the first read, so that re-read rejects and the `.catch` fallback supplies
`text = ''`, making the response `transliteration: ""` rather than an echo
of the input. A parsed upstream payload yields its candidate when it matches
the SUCCESS shape and otherwise falls back to echoing the input text. -/
def transliteratePOST : ReqBody → UpstreamOutcome → ApiResp
  | ReqBody.malformed, _ => ApiResp.ok ""
  | ReqBody.noText, _ => ApiResp.badRequest "Text is required"
  | ReqBody.withText t, u =>
    if t == "" then ApiResp.badRequest "Text is required"
    else
      match u with
      | UpstreamOutcome.throwErr => ApiResp.ok ""
      | UpstreamOutcome.notOk _ => ApiResp.ok ""
      | UpstreamOutcome.okParsed true (some r) => ApiResp.ok r
      | UpstreamOutcome.okParsed true none => ApiResp.ok t
      | UpstreamOutcome.okParsed false _ => ApiResp.ok t

end Anandak

namespace Anandak

/-- Counterexample to C9: a POST carrying the string `""` as text receives a
400 error rather than a transliteration, and on an upstream fetch failure
the endpoint answers with the empty string — not an echo of the input
"Ram" — because the catch block cannot re-read the consumed request body. -/
theorem transliterate_claim_false :
    transliteratePOST (ReqBody.withText "") (UpstreamOutcome.okParsed true (some "x")) =
      ApiResp.badRequest "Text is required" ∧
    transliteratePOST (ReqBody.withText "Ram") UpstreamOutcome.throwErr = ApiResp.ok "" ∧
    ApiResp.ok "" ≠ ApiResp.ok "Ram" := by
  decide

/-- C9 (amended): for every POST carrying a non-empty text the response is
always of the `transliteration` shape; when the upstream payload parses but
does not match the SUCCESS shape the endpoint echoes the input text, a
matching payload yields the upstream candidate, and when the upstream call
throws or returns non-OK the endpoint answers with the empty string (the
consumed body cannot be re-read); a missing or empty text yields the 400
"Text is required" error. -/
theorem transliterate_behavior (t : String) (u : UpstreamOutcome) (h : t ≠ "") :
    (∃ s, transliteratePOST (ReqBody.withText t) u = ApiResp.ok s) ∧
    (∀ c, transliteratePOST (ReqBody.withText t) (UpstreamOutcome.okParsed false c) =
        ApiResp.ok t) ∧
    transliteratePOST (ReqBody.withText t) (UpstreamOutcome.okParsed true none) =
      ApiResp.ok t ∧
    (∀ r, transliteratePOST (ReqBody.withText t) (UpstreamOutcome.okParsed true (some r)) =
        ApiResp.ok r) ∧
    transliteratePOST (ReqBody.withText t) UpstreamOutcome.throwErr = ApiResp.ok "" ∧
    (∀ st, transliteratePOST (ReqBody.withText t) (UpstreamOutcome.notOk st) = ApiResp.ok "") ∧
    (∀ u2, transliteratePOST ReqBody.noText u2 = ApiResp.badRequest "Text is required") ∧
    (∀ u2, transliteratePOST (ReqBody.withText "") u2 = ApiResp.badRequest "Text is required") := by
  have he : (t == "") = false := beq_eq_false_iff_ne.mpr h
  refine ⟨?_, fun c => by simp [transliteratePOST, he], by simp [transliteratePOST, he],
    fun r => by simp [transliteratePOST, he], by simp [transliteratePOST, he],
    fun st => by simp [transliteratePOST, he], fun u2 => rfl, fun u2 => rfl⟩
  cases u with
  | throwErr => exact ⟨"", by simp [transliteratePOST, he]⟩
  | notOk st => exact ⟨"", by simp [transliteratePOST, he]⟩
  | okParsed b c =>
    cases b with
    | false => exact ⟨t, by simp [transliteratePOST, he]⟩
    | true =>
      cases c with
      | none => exact ⟨t, by simp [transliteratePOST, he]⟩
      | some r => exact ⟨r, by simp [transliteratePOST, he]⟩

/-- Witness for C9's amended theorem at the input "Ram" and a non-SUCCESS
upstream payload. -/
theorem transliterate_behavior_witness :
    (∃ s, transliteratePOST (ReqBody.withText "Ram")
        (UpstreamOutcome.okParsed false none) = ApiResp.ok s) ∧
    (∀ c, transliteratePOST (ReqBody.withText "Ram") (UpstreamOutcome.okParsed false c) =
        ApiResp.ok "Ram") ∧
    transliteratePOST (ReqBody.withText "Ram") (UpstreamOutcome.okParsed true none) =
      ApiResp.ok "Ram" ∧
    (∀ r, transliteratePOST (ReqBody.withText "Ram") (UpstreamOutcome.okParsed true (some r)) =
        ApiResp.ok r) ∧
    transliteratePOST (ReqBody.withText "Ram") UpstreamOutcome.throwErr = ApiResp.ok "" ∧
    (∀ st, transliteratePOST (ReqBody.withText "Ram") (UpstreamOutcome.notOk st) =
        ApiResp.ok "") ∧
    (∀ u2, transliteratePOST ReqBody.noText u2 = ApiResp.badRequest "Text is required") ∧
    (∀ u2, transliteratePOST (ReqBody.withText "") u2 =
        ApiResp.badRequest "Text is required") :=
  transliterate_behavior "Ram" (UpstreamOutcome.okParsed false none) (by decide)

/-- C1: for every totalScore in [6, 18], `getFinalFeedback` returns exactly
one bucket's text — the buckets are non-overlapping (exactly one bucket
contains each such score) and exhaustive (a bucket text is always returned);
totalScore 18 selects the top bucket's text and totalScore 6 the bottom
bucket's text. -/
theorem getFinalFeedback_buckets (s : Nat) (h1 : 6 ≤ s) (h2 : s ≤ 18) (lang : Language) :
    (finalFeedbackBuckets.countP (fun b => b.lo ≤ s && s ≤ b.hi)) = 1 ∧
    (∃ b ∈ finalFeedbackBuckets,
        (b.lo ≤ s ∧ s ≤ b.hi) ∧ getFinalFeedback s lang = some (b.text.get lang)) ∧
    getFinalFeedback 18 lang =
      some ((finalFeedbackBuckets.getLastD defaultBucket).text.get lang) ∧
    getFinalFeedback 6 lang =
      some ((finalFeedbackBuckets.headD defaultBucket).text.get lang) := by
  interval_cases s <;> cases lang <;> decide

/-- Witness for C1 at totalScore 7 and language `en`. -/
theorem getFinalFeedback_buckets_witness :
    (finalFeedbackBuckets.countP (fun b => b.lo ≤ 7 && 7 ≤ b.hi)) = 1 ∧
    (∃ b ∈ finalFeedbackBuckets,
        (b.lo ≤ 7 ∧ 7 ≤ b.hi) ∧ getFinalFeedback 7 Language.en = some (b.text.get Language.en)) ∧
    getFinalFeedback 18 Language.en =
      some ((finalFeedbackBuckets.getLastD defaultBucket).text.get Language.en) ∧
    getFinalFeedback 6 Language.en =
      some ((finalFeedbackBuckets.headD defaultBucket).text.get Language.en) :=
  getFinalFeedback_buckets 7 (by decide) (by decide) Language.en

end Anandak
